import Mathlib

/-!
Verification of the Yandex.Disk public-share browser (Django app `yandexdisk`).

The development shallowly embeds the pure cores of the four source files:

* `forms.py`    — `FileType` (a `str`-valued enum) and `PublicLinkForm.clean_public_key`;
* `views.py`    — `HomeView._filter_files`, `DownloadFilesView._create_zip_archive`,
  `DownloadFilesView._extract_filename`, `DownloadFilesView.post`;
* `services/YandexDiskService.py` — `_parse_public_resources`,
  `_generate_cache_key`, `get_public_resources` (the Django cache is made an
  explicit association list with expiry timestamps, wall-clock time an explicit
  `Nat` parameter, and the outbound HTTP GET an explicit function argument).

Python dictionaries produced by the provider API are embedded as structures
whose optional fields model absent keys; `requests` failures
(`requests.RequestException`, raised by `raise_for_status` on non-2xx) are
embedded as the `Except Unit` error case.
-/

namespace YandexDisk

/-- A provider resource entry: the dictionary shape requested from the API via
the `fields` parameter (`name`, `type`, `path`, `mime_type`, `file`).  Optional
fields model keys that may be absent from the Python dict (`f.get(...)`). -/
structure ResourceEntry where
  name : Option String
  type : Option String
  path : Option String
  mime_type : Option String
  file : Option String
deriving DecidableEq, Repr

/-! ### Python `str` method shims

The source calls `str.strip`, `str.startswith`, `str.split`, `str.replace` and
the `urllib.parse` helpers.  We model these methods over the character list of
a `String` with structural recursion, so that every definition evaluates on
concrete inputs. -/

/-- The characters stripped by Python's `str.strip()` with no argument
(ASCII whitespace; the further Unicode space characters do not occur in the
inputs this program handles). -/
def pyIsSpace (c : Char) : Bool :=
  decide (c = ' ' ∨ c = '\t' ∨ c = '\n' ∨ c = '\r' ∨ c = '\x0b' ∨ c = '\x0c')

/-- Python `s.strip()`: remove leading and trailing whitespace. -/
def py_strip (s : String) : String :=
  String.mk (((s.data.dropWhile pyIsSpace).reverse.dropWhile pyIsSpace).reverse)

/-- Python `s.startswith(p)`: `p` is a prefix of `s`. -/
def py_startswith (s p : String) : Bool :=
  p.data.isPrefixOf s.data

/-- `FileType` from `forms.py`: a `str`-valued enum, so each member *is* its
string value and compares equal to it.  We embed the members as their values. -/
def FileType.ALL : String := "Все"

def FileType.DOCUMENTS : String := "Документы"

def FileType.IMAGES : String := "Изображения"

def FileType.VIDEO : String := "Видео"

def FileType.AUDIO : String := "Аудио"

/-- `FileType.get_mime_prefix` (`forms.py` 49–58): dictionary lookup of the
MIME prefix registered for a file type, with default `""` for keys not in the
dictionary (`mime_prefixes.get(file_type_name, "")`). -/
def FileType.get_mime_prefix (file_type_name : String) : String :=
  if file_type_name = FileType.DOCUMENTS then "application/"
  else if file_type_name = FileType.IMAGES then "image/"
  else if file_type_name = FileType.VIDEO then "video/"
  else if file_type_name = FileType.AUDIO then "audio/"
  else ""

/-- `HomeView._filter_files` (`views.py` 114–123):
if the requested type is `ALL` return the list unchanged; otherwise look up the
MIME prefix and, when it is non-empty (truthy), keep the entries `f` with
`f.get('mime_type', '').startswith(mime_prefix)`; when the prefix is empty the
initial `filtered = []` is returned. -/
def filter_files (files : List ResourceEntry) (file_type : String) :
    List ResourceEntry :=
  if file_type = FileType.ALL then files
  else
    let mime_prefix := FileType.get_mime_prefix file_type
    if mime_prefix ≠ "" then
      files.filter (fun f => py_startswith (f.mime_type.getD "") mime_prefix)
    else []

/-- The provider's response to the public-resources GET
(`_parse_public_resources`'s argument).  `embedded_items` models the two nested
key-membership tests: `none` when `'_embedded' not in data`,
`some none` when `data['_embedded']` exists but has no `'items'` key, and
`some (some items)` when both keys are present.  `self_entry` carries the
response's own entry fields (`type`, `mime_type`, …), used when the response
describes a single file. -/
structure ApiResponse where
  embedded_items : Option (Option (List ResourceEntry))
  self_entry : ResourceEntry
deriving DecidableEq, Repr

/-- `YandexDiskService._parse_public_resources` (`YandexDiskService.py` 71–79):
return `data['_embedded']['items']` when both keys are present; otherwise
return `[data]` when `data.get('type') == 'file'`; otherwise `[]`. -/
def parse_public_resources (data : ApiResponse) : List ResourceEntry :=
  match data.embedded_items with
  | some (some items) => items
  | _ =>
    if data.self_entry.type = some "file" then [data.self_entry]
    else []

/-- The Django cache (`django.core.cache.cache`), embedded as an association
list from keys to `(value, expiry time)`.  `cache.set(k, v, timeout=300)` at
wall-clock time `now` stores `v` under `k` until `now + 300`; `cache.get(k)`
returns the stored value while unexpired and `None` (`none`) otherwise. -/
def Cache : Type := List (String × (List ResourceEntry × Nat))

/-- `cache.get(key)` at time `now`: the value stored under `key`, provided its
expiry lies strictly in the future. -/
def cache_get (c : Cache) (now : Nat) (key : String) :
    Option (List ResourceEntry) :=
  match List.lookup key c with
  | some (v, expires) => if now < expires then some v else none
  | none => none

/-- `cache.set(key, value, timeout=300)` at time `now`: store `value` under
`key` with expiry `now + 300`, shadowing any previous binding. -/
def cache_set (c : Cache) (now : Nat) (key : String)
    (value : List ResourceEntry) : Cache :=
  (key, (value, now + 300)) :: c

/-- `YandexDiskService._generate_cache_key` (`YandexDiskService.py` 55–58):
`f"public_resources_{public_key}"`.  The key depends on the public link only,
never on the session or the token. -/
def generate_cache_key (public_key : String) : String :=
  "public_resources_" ++ public_key

/-- `YandexDiskService.get_public_resources` (`YandexDiskService.py` 36–53).
The outbound authenticated GET is the explicit argument
`upstream : token → public_key → Except Unit ApiResponse`, whose error case
models `requests.RequestException` (network failure, or non-2xx turned into an
exception by `raise_for_status`).  The result records the Python return value
(`None` for the `except` branch), the cache after the call, and how many
upstream requests were issued (0 or 1). -/
def get_public_resources (upstream : String → String → Except Unit ApiResponse)
    (c : Cache) (now : Nat) (token : String) (public_key : String) :
    Option (List ResourceEntry) × Cache × Nat :=
  let cache_key := generate_cache_key public_key
  match cache_get c now cache_key with
  | some cached_resources => (some cached_resources, c, 0)
  | none =>
    match upstream token public_key with
    | Except.ok data =>
      let resources := parse_public_resources data
      (some resources, cache_set c now cache_key resources, 1)
    | Except.error _ => (none, c, 1)

/-- `PublicLinkForm.clean_public_key` (`forms.py` 76–81): strip surrounding
whitespace, raise `ValidationError` (the `Except.error` case) unless the
stripped value starts with `'https://disk.yandex.ru/'`, and return the stripped
value otherwise. -/
def clean_public_key (public_key : String) : Except Unit String :=
  let stripped := py_strip public_key
  if py_startswith stripped "https://disk.yandex.ru/" then Except.ok stripped
  else Except.error ()

/-! ### `urllib.parse` shims

`DownloadFilesView._extract_filename` uses `urlparse` and `parse_qs`.  We embed
the parts of those stdlib functions it exercises: query extraction (fragment
split at the first `#`, then query split at the first `?`), query-string field
splitting on `&` and `=`, and `unquote` percent-decoding (`+` first replaced by
a space as in `parse_qsl`, percent pairs decoded as UTF-8 bytes with U+FFFD
replacement for invalid sequences). -/

/-- Value of an ASCII hexadecimal digit, as used by `urllib.parse.unquote`. -/
def hexDigit (c : Char) : Option Nat :=
  if '0' ≤ c ∧ c ≤ '9' then some (c.toNat - '0'.toNat)
  else if 'a' ≤ c ∧ c ≤ 'f' then some (c.toNat - 'a'.toNat + 10)
  else if 'A' ≤ c ∧ c ≤ 'F' then some (c.toNat - 'A'.toNat + 10)
  else none

/-- Continuation byte test for UTF-8 decoding (`0x80 ≤ b < 0xC0`). -/
def isContByte (b : Nat) : Bool :=
  decide (0x80 ≤ b ∧ b < 0xC0)

/-- Admissible first continuation byte after a three-byte lead. -/
def validCont3 (b b2 : Nat) : Bool :=
  isContByte b2 && (decide (b ≠ 0xE0) || decide (0xA0 ≤ b2))
    && (decide (b ≠ 0xED) || decide (b2 ≤ 0x9F))

/-- Admissible first continuation byte after a four-byte lead. -/
def validCont4 (b b2 : Nat) : Bool :=
  isContByte b2 && (decide (b ≠ 0xF0) || decide (0x90 ≤ b2))
    && (decide (b ≠ 0xF4) || decide (b2 ≤ 0x8F))

/-- The Unicode replacement character U+FFFD emitted by `errors='replace'`. -/
def replacementChar : Char := Char.ofNat 0xFFFD

/-- UTF-8 decoding of a byte list with replacement on invalid sequences
(`bytes.decode('utf-8', errors='replace')` inside `unquote`), fuelled by the
number of bytes (each step consumes at least one byte). -/
def utf8DecodeAux : Nat → List Nat → List Char
  | 0, _ => []
  | _, [] => []
  | fuel + 1, b :: rest =>
    if b < 0x80 then Char.ofNat b :: utf8DecodeAux fuel rest
    else if 0xC2 ≤ b ∧ b ≤ 0xDF then
      match rest with
      | b2 :: rest2 =>
        if isContByte b2 then
          Char.ofNat ((b - 0xC0) * 64 + (b2 - 0x80)) :: utf8DecodeAux fuel rest2
        else replacementChar :: utf8DecodeAux fuel rest
      | [] => [replacementChar]
    else if 0xE0 ≤ b ∧ b ≤ 0xEF then
      match rest with
      | b2 :: b3 :: rest3 =>
        if validCont3 b b2 && isContByte b3 then
          Char.ofNat ((b - 0xE0) * 4096 + (b2 - 0x80) * 64 + (b3 - 0x80)) ::
            utf8DecodeAux fuel rest3
        else replacementChar :: utf8DecodeAux fuel rest
      | _ => replacementChar :: utf8DecodeAux fuel rest
    else if 0xF0 ≤ b ∧ b ≤ 0xF4 then
      match rest with
      | b2 :: b3 :: b4 :: rest4 =>
        if validCont4 b b2 && isContByte b3 && isContByte b4 then
          Char.ofNat ((b - 0xF0) * 262144 + (b2 - 0x80) * 4096 +
              (b3 - 0x80) * 64 + (b4 - 0x80)) :: utf8DecodeAux fuel rest4
        else replacementChar :: utf8DecodeAux fuel rest
      | _ => replacementChar :: utf8DecodeAux fuel rest
    else replacementChar :: utf8DecodeAux fuel rest

/-- UTF-8 decoding of a byte list (replacement on invalid sequences). -/
def utf8Decode (bytes : List Nat) : List Char :=
  utf8DecodeAux bytes.length bytes

/-- Scan for `%XX` escapes: a percent followed by two hex digits becomes the
byte it denotes (`Sum.inr`), every other character is kept (`Sum.inl`); a
percent not followed by two hex digits is kept literally, as in `unquote`. -/
def percentTokens : List Char → List (Sum Char Nat)
  | '%' :: a :: b :: rest =>
    match hexDigit a, hexDigit b with
    | some ha, some hb => Sum.inr (16 * ha + hb) :: percentTokens rest
    | _, _ => Sum.inl '%' :: percentTokens (a :: b :: rest)
  | c :: rest => Sum.inl c :: percentTokens rest
  | [] => []

/-- Decode maximal runs of percent-escaped bytes as UTF-8 and pass other
characters through; `pending` holds the current byte run in reverse. -/
def decodeTokens (pending : List Nat) : List (Sum Char Nat) → List Char
  | [] => utf8Decode pending.reverse
  | Sum.inr byte :: rest => decodeTokens (byte :: pending) rest
  | Sum.inl c :: rest => utf8Decode pending.reverse ++ c :: decodeTokens [] rest

/-- `urllib.parse.unquote`: replace `%XX` escape runs by their UTF-8 decoding,
leaving malformed escapes untouched. -/
def unquote (cs : List Char) : String :=
  String.mk (decodeTokens [] (percentTokens cs))

/-- Python `s.split(sep)` for a one-character separator (the separators the
source exercises — `#`, `?`, `&`, `=` — are all single characters). -/
def splitOnChar (sep : Char) : List Char → List (List Char)
  | [] => [[]]
  | c :: rest =>
    if c = sep then [] :: splitOnChar sep rest
    else
      match splitOnChar sep rest with
      | [] => [[c]]
      | grp :: grps => (c :: grp) :: grps

/-- Rejoin split groups with the separator; `splitOnChar sep` composed with
this is the identity, so `s.split(sep, 1)[1]` is `joinWithChar` of the tail of
the full split. -/
def joinWithChar (sep : Char) : List (List Char) → List Char
  | [] => []
  | [grp] => grp
  | grp :: grps => grp ++ sep :: joinWithChar sep grps

/-- Characters WHATWG-stripped from a URL by `urlsplit` before parsing
(C0 controls and space at both ends). -/
def isC0OrSpace (c : Char) : Bool :=
  decide (c ≤ ' ')

/-- The query component extracted by `urlparse(file_url).query`: after the
stdlib's removal of leading C0-control/space characters (`urlsplit` only
left-strips, preserving trailing space) and of embedded tab/CR/LF characters,
the part after the first `?` of the part before the first `#`. -/
def urlparse_query (url : String) : List Char :=
  let stripped := url.data.dropWhile isC0OrSpace
  let sanitized := stripped.filter fun c => !(c = '\t' ∨ c = '\r' ∨ c = '\n')
  let before_fragment := (splitOnChar '#' sanitized).headD sanitized
  match splitOnChar '?' before_fragment with
  | [] => []
  | [_] => []
  | _ :: rest => joinWithChar '?' rest

/-- `urllib.parse.parse_qsl` with default arguments, as used by `parse_qs`:
split the query on `&`, drop empty fields, fields without `=` and fields with
an empty value, split each remaining field at its first `=`, and decode name
and value with `+ → space` followed by `unquote`. -/
def parse_qsl (qs : List Char) : List (String × String) :=
  (splitOnChar '&' qs).filterMap fun field =>
    if field = [] then none
    else
      match splitOnChar '=' field with
      | [] => none
      | [_] => none
      | name :: rest =>
        let value := joinWithChar '=' rest
        if value = [] then none
        else
          some (unquote (name.map fun c => if c = '+' then ' ' else c),
            unquote (value.map fun c => if c = '+' then ' ' else c))

/-- `DownloadFilesView._extract_filename` (`views.py` 158–164):
`parse_qs(urlparse(file_url).query).get('filename', ['downloaded_file'])[0]` —
the first `filename` value of the URL's query string, with the fixed fallback
`downloaded_file` when the parameter is absent. -/
def extract_filename (file_url : String) : String :=
  match (parse_qsl (urlparse_query file_url)).find? (fun p => p.1 == "filename") with
  | some p => p.2
  | none => "downloaded_file"

/-- `DownloadFilesView._create_zip_archive` (`views.py` 144–156).  The HTTP GET
for file contents is the explicit argument `fetch`, whose error case models
`requests.RequestException` (raised by `requests.get` on a transport error or
by `raise_for_status` on non-2xx).  The archive is the list of its members
`(name, bytes)` in the order written; an exception anywhere aborts the whole
construction (the buffer is discarded, nothing is returned). -/
def create_zip_archive (fetch : String → Except Unit String) :
    List String → Except Unit (List (String × String))
  | [] => Except.ok []
  | file_url :: rest =>
    match fetch file_url with
    | Except.error e => Except.error e
    | Except.ok content =>
      match create_zip_archive fetch rest with
      | Except.error e => Except.error e
      | Except.ok archive_rest =>
        Except.ok ((extract_filename file_url, content) :: archive_rest)

/-- The content returned by a successful fetch (`""` when the fetch failed);
used only to state what a fully successful archive build produces. -/
def fetched_content (fetch : String → Except Unit String)
    (file_url : String) : String :=
  match fetch file_url with
  | Except.ok content => content
  | Except.error _ => ""

/-- The three outcomes of `DownloadFilesView.post`: redirect to `auth_url`
(no token), redirect to `home` (empty selection or failed build), or the
ZIP attachment response. -/
inductive DownloadResponse
  | redirect_auth_url
  | redirect_home
  | zip_response (members : List (String × String))
deriving DecidableEq, Repr

/-- `DownloadFilesView.post` (`views.py` 129–142): redirect to `auth_url`
without a session token; redirect to `home` when the posted `files` list is
empty (`if not file_urls`); otherwise build the archive, returning it on
success and redirecting to `home` when a `requests.RequestException` escapes
the build. -/
def download_files_post (token : Option String)
    (fetch : String → Except Unit String) (file_urls : List String) :
    DownloadResponse :=
  match token with
  | none => DownloadResponse.redirect_auth_url
  | some _ =>
    if file_urls = [] then DownloadResponse.redirect_home
    else
      match create_zip_archive fetch file_urls with
      | Except.ok members => DownloadResponse.zip_response members
      | Except.error _ => DownloadResponse.redirect_home

/-! ### Sample data used by the concrete witnesses -/

/-- A file entry with an image MIME type. -/
def image_entry : ResourceEntry :=
  ⟨some "photo.png", some "file", some "disk:/photo.png", some "image/png",
    some "https://downloader.disk.yandex.ru/disk/photo.png?filename=photo.png"⟩

/-- A folder entry: no `mime_type`, no download URL. -/
def folder_entry : ResourceEntry :=
  ⟨some "docs", some "dir", some "disk:/docs", none, none⟩

/-- A file entry with an audio MIME type. -/
def audio_entry : ResourceEntry :=
  ⟨some "song.mp3", some "file", some "disk:/song.mp3", some "audio/mpeg", none⟩

/-- A mixed entry list. -/
def sample_entries : List ResourceEntry := [image_entry, folder_entry, audio_entry]

/-- A single-file provider response (no `_embedded` key, `type == 'file'`). -/
def audio_response : ApiResponse := ⟨none, audio_entry⟩

/-- An upstream that always answers with the single-file response. -/
def ok_upstream : String → String → Except Unit ApiResponse :=
  fun _ _ => Except.ok audio_response

/-- An upstream on which every request fails with `requests.RequestException`. -/
def failing_upstream : String → String → Except Unit ApiResponse :=
  fun _ _ => Except.error ()

/-- A file fetch on which every request fails. -/
def failing_fetch : String → Except Unit String :=
  fun _ => Except.error ()

/-- A file fetch on which every request succeeds with body `"payload"`. -/
def succeeding_fetch : String → Except Unit String :=
  fun _ => Except.ok "payload"

/-! ### Claims -/

/-- C1: for each specific category (Documents, Images, Video, Audio),
`HomeView._filter_files` returns exactly the entries whose `mime_type` is
present and starts with the category's registered MIME prefix — the
order-preserving `List.filter` of that predicate — and entries lacking a
`mime_type` (such as folders) are excluded. -/
theorem filter_files_specific_category (files : List ResourceEntry)
    (file_type : String)
    (h : file_type = FileType.DOCUMENTS ∨ file_type = FileType.IMAGES ∨
      file_type = FileType.VIDEO ∨ file_type = FileType.AUDIO) :
    filter_files files file_type =
      files.filter fun f =>
        match f.mime_type with
        | some m => py_startswith m ( FileType.get_mime_prefix file_type)
        | none => false := by
  rcases h with h | h | h | h <;> subst h <;>
    (simp only [filter_files]
     rw [if_neg (by decide), if_pos (by decide)]
     exact List.filter_congr fun f _ => by cases f.mime_type <;> rfl)

/-- Witness for C1: filtering the sample list by Images. -/
theorem filter_files_specific_category_witness :
    (FileType.IMAGES = FileType.DOCUMENTS ∨ FileType.IMAGES = FileType.IMAGES ∨
      FileType.IMAGES = FileType.VIDEO ∨ FileType.IMAGES = FileType.AUDIO) ∧
    filter_files sample_entries FileType.IMAGES =
      sample_entries.filter fun f =>
        match f.mime_type with
        | some m => py_startswith m ( FileType.get_mime_prefix FileType.IMAGES)
        | none => false :=
  ⟨Or.inr (Or.inl rfl),
    filter_files_specific_category sample_entries FileType.IMAGES
      (Or.inr (Or.inl rfl))⟩

/-- C7: filtering with category All returns the input sequence unchanged,
whatever the entries (missing `mime_type` and folders included). -/
theorem filter_files_all_returns_input (files : List ResourceEntry) :
    filter_files files FileType.ALL = files := by
  unfold filter_files
  rw [if_pos rfl]

/-- C9: for a category that is not All and has no registered MIME prefix —
the empty string submitted when the optional `file_type` field is omitted
included — `HomeView._filter_files` returns the empty list. -/
theorem filter_files_unregistered_category (files : List ResourceEntry)
    (file_type : String) (hall : file_type ≠ FileType.ALL)
    (hdoc : file_type ≠ FileType.DOCUMENTS) (himg : file_type ≠ FileType.IMAGES)
    (hvid : file_type ≠ FileType.VIDEO) (haud : file_type ≠ FileType.AUDIO) :
    filter_files files file_type = [] := by
  have hp : FileType.get_mime_prefix file_type = "" := by
    unfold FileType.get_mime_prefix
    rw [if_neg hdoc, if_neg himg, if_neg hvid, if_neg haud]
  simp [filter_files, hall, hp]

/-- Witness for C9 at the empty-string category produced by an omitted
`file_type` form field. -/
theorem filter_files_unregistered_category_witness :
    ("" ≠ FileType.ALL) ∧ filter_files sample_entries "" = [] :=
  ⟨by decide,
    filter_files_unregistered_category sample_entries "" (by decide) (by decide)
      (by decide) (by decide) (by decide)⟩

/-- C2: `_parse_public_resources` returns the embedded items collection when
the response has one; otherwise the one-element list holding the response
itself when its `type` is `'file'`; otherwise the empty list. -/
theorem parse_public_resources_cases (data : ApiResponse) :
    (∀ items, data.embedded_items = some (some items) →
      parse_public_resources data = items) ∧
    ((∀ items, data.embedded_items ≠ some (some items)) →
      (data.self_entry.type = some "file" →
        parse_public_resources data = [data.self_entry]) ∧
      (data.self_entry.type ≠ some "file" →
        parse_public_resources data = [])) := by
  obtain ⟨emb, self⟩ := data
  constructor
  · rintro items rfl
    rfl
  · intro hne
    rcases emb with _ | (_ | items)
    · refine ⟨fun hf => ?_, fun hnf => ?_⟩
      · have hf' : self.type = some "file" := hf
        simp [parse_public_resources, hf']
      · have hnf' : self.type ≠ some "file" := hnf
        simp [parse_public_resources, hnf']
    · refine ⟨fun hf => ?_, fun hnf => ?_⟩
      · have hf' : self.type = some "file" := hf
        simp [parse_public_resources, hf']
      · have hnf' : self.type ≠ some "file" := hnf
        simp [parse_public_resources, hnf']
    · exact absurd rfl (hne items)

/-- Witness for C2: the spec's single-file `audio/mpeg` response resolves to
the one-element list holding it. -/
theorem parse_public_resources_cases_witness :
    audio_response.self_entry.type = some "file" ∧
    parse_public_resources audio_response = [audio_response.self_entry] :=
  ⟨rfl,
    ((parse_public_resources_cases audio_response).2
        (fun items h => by simp [audio_response] at h)).1 rfl⟩

/-- C3: if any single fetch fails, the whole archive build aborts with the
failure and no archive (in particular no partial archive) is returned. -/
theorem create_zip_archive_aborts_on_failure
    (fetch : String → Except Unit String) (file_urls : List String)
    (h : ∃ u ∈ file_urls, fetch u = Except.error ()) :
    create_zip_archive fetch file_urls = Except.error () := by
  induction file_urls with
  | nil => obtain ⟨u, hu, _⟩ := h; exact absurd hu (List.not_mem_nil u)
  | cons url rest ih =>
    obtain ⟨u, hu, hf⟩ := h
    rcases List.mem_cons.mp hu with rfl | hmem
    · simp [create_zip_archive, hf]
    · cases hfu : fetch url with
      | error e => cases e; simp [create_zip_archive, hfu]
      | ok content =>
        simp [create_zip_archive, hfu, ih ⟨u, hmem, hf⟩]

/-- Witness for C3: a failing fetch aborts a one-URL build. -/
theorem create_zip_archive_aborts_on_failure_witness :
    (∃ u ∈ ["https://downloader.example/a?filename=a.txt"],
      failing_fetch u = Except.error ()) ∧
    create_zip_archive failing_fetch
        ["https://downloader.example/a?filename=a.txt"] = Except.error () :=
  ⟨⟨"https://downloader.example/a?filename=a.txt", by simp, rfl⟩,
    create_zip_archive_aborts_on_failure failing_fetch _
      ⟨"https://downloader.example/a?filename=a.txt", by simp, rfl⟩⟩

/-- C6: when every fetch succeeds the archive has exactly one member per URL,
in input order, each named by `_extract_filename` (the URL's `filename` query
parameter, with fixed fallback `downloaded_file`). -/
theorem create_zip_archive_success
    (fetch : String → Except Unit String) (file_urls : List String)
    (h : ∀ u ∈ file_urls, (fetch u).isOk = true) :
    create_zip_archive fetch file_urls =
      Except.ok (file_urls.map fun u =>
        (extract_filename u, fetched_content fetch u)) := by
  induction file_urls with
  | nil => rfl
  | cons url rest ih =>
    have hu := h url (List.mem_cons_self url rest)
    cases hfu : fetch url with
    | error e => rw [hfu] at hu; simp [Except.isOk, Except.toBool] at hu
    | ok content =>
      have htail := ih fun u hmem => h u (List.mem_cons_of_mem url hmem)
      simp [create_zip_archive, hfu, htail, fetched_content]

/-- Witness for C6: the spec's two-URL example yields members `cat.png` and
`dog.png` in order. -/
theorem create_zip_archive_success_witness :
    (∀ u ∈ ["https://downloader.x/a?filename=cat.png",
            "https://downloader.x/b?filename=dog.png"],
      (succeeding_fetch u).isOk = true) ∧
    create_zip_archive succeeding_fetch
        ["https://downloader.x/a?filename=cat.png",
         "https://downloader.x/b?filename=dog.png"] =
      Except.ok [("cat.png", "payload"), ("dog.png", "payload")] :=
  ⟨fun u _ => rfl,
    (create_zip_archive_success succeeding_fetch
        ["https://downloader.x/a?filename=cat.png",
         "https://downloader.x/b?filename=dog.png"]
        (fun u _ => rfl)).trans (by rfl)⟩

/-- C10: building from the empty URL list never fails — the builder yields the
well-formed empty archive, and the download handler answers the empty
selection with an explicit no-op redirect without building anything. -/
theorem empty_url_list_is_noop (token : String)
    (fetch : String → Except Unit String) :
    create_zip_archive fetch [] = Except.ok [] ∧
    download_files_post (some token) fetch [] =
      DownloadResponse.redirect_home :=
  ⟨rfl, rfl⟩

/-- C4: after a successful miss-resolve at time `t0`, any resolve of the same
link strictly before `t0 + 300` — whatever its token and whatever its upstream
would do — issues zero upstream calls and returns the cached sequence with the
cache unchanged; the cache key depends on the link alone. -/
theorem cache_hit_within_ttl
    (upstream1 : String → String → Except Unit ApiResponse) (c : Cache)
    (t0 : Nat) (token1 public_key : String) (resp : ApiResponse)
    (hmiss : cache_get c t0 (generate_cache_key public_key) = none)
    (hok : upstream1 token1 public_key = Except.ok resp) :
    get_public_resources upstream1 c t0 token1 public_key =
      (some (parse_public_resources resp),
        cache_set c t0 (generate_cache_key public_key)
          (parse_public_resources resp), 1) ∧
    ∀ (upstream2 : String → String → Except Unit ApiResponse)
      (token2 : String) (t1 : Nat), t0 ≤ t1 → t1 < t0 + 300 →
      get_public_resources upstream2
          (cache_set c t0 (generate_cache_key public_key)
            (parse_public_resources resp)) t1 token2 public_key =
        (some (parse_public_resources resp),
          cache_set c t0 (generate_cache_key public_key)
            (parse_public_resources resp), 0) := by
  constructor
  · simp [get_public_resources, hmiss, hok]
  · intro upstream2 token2 t1 _ h1
    have hhit : cache_get
        (cache_set c t0 (generate_cache_key public_key)
          (parse_public_resources resp)) t1 (generate_cache_key public_key) =
        some (parse_public_resources resp) := by
      simp [cache_get, cache_set, List.lookup, h1]
    simp [get_public_resources, hhit]

/-- Witness for C4: a resolve at time 299 after a miss-resolve at time 0, with
a different token and an upstream that would fail, still answers from the
cache with zero upstream calls. -/
theorem cache_hit_within_ttl_witness :
    get_public_resources failing_upstream
        (cache_set [] 0 (generate_cache_key "https://disk.yandex.ru/d/folder")
          (parse_public_resources audio_response)) 299 "token-b"
        "https://disk.yandex.ru/d/folder" =
      (some (parse_public_resources audio_response),
        cache_set [] 0 (generate_cache_key "https://disk.yandex.ru/d/folder")
          (parse_public_resources audio_response), 0) :=
  (cache_hit_within_ttl ok_upstream [] 0 "token-a"
      "https://disk.yandex.ru/d/folder" audio_response rfl rfl).2
    failing_upstream "token-b" 299 (Nat.zero_le 299) (by decide)

/-- C5: a transport-level failure on a cache miss makes the resolver return
the failure value `None` — not a list, hence distinct from the empty list of
an empty folder — and leaves the cache unchanged. -/
theorem upstream_failure_returns_none
    (upstream : String → String → Except Unit ApiResponse) (c : Cache)
    (now : Nat) (token public_key : String)
    (hmiss : cache_get c now (generate_cache_key public_key) = none)
    (hfail : upstream token public_key = Except.error ()) :
    get_public_resources upstream c now token public_key = (none, c, 1) ∧
    (get_public_resources upstream c now token public_key).1 ≠ some [] := by
  have hres : get_public_resources upstream c now token public_key =
      (none, c, 1) := by
    simp [get_public_resources, hmiss, hfail]
  exact ⟨hres, by rw [hres]; simp⟩

/-- Witness for C5: a failing upstream on an empty cache. -/
theorem upstream_failure_returns_none_witness :
    get_public_resources failing_upstream [] 0 "token-a"
        "https://disk.yandex.ru/d/x" = (none, [], 1) ∧
    (get_public_resources failing_upstream [] 0 "token-a"
        "https://disk.yandex.ru/d/x").1 ≠ some [] :=
  upstream_failure_returns_none failing_upstream [] 0 "token-a"
    "https://disk.yandex.ru/d/x" rfl rfl

/-- C8 counterexample: a submitted string that does not start with the
required prefix (it has a leading space) is nonetheless accepted by
`clean_public_key`, because the code strips surrounding whitespace before the
check — so "for every string that does not match that prefix, validation
always raises" is false as stated. -/
theorem clean_public_key_counterexample :
    py_startswith " https://disk.yandex.ru/d/abc" "https://disk.yandex.ru/"
        = false ∧
    clean_public_key " https://disk.yandex.ru/d/abc" =
      Except.ok "https://disk.yandex.ru/d/abc" :=
  ⟨rfl, rfl⟩

/-- C8 (amended): `clean_public_key` raises `ValidationError` exactly when the
whitespace-stripped submitted string does not start with
`https://disk.yandex.ru/`; on matching stripped strings it never raises. -/
theorem clean_public_key_amended (public_key : String) :
    clean_public_key public_key = Except.error () ↔
      py_startswith (py_strip public_key) "https://disk.yandex.ru/" = false := by
  simp only [clean_public_key]
  cases hsw : py_startswith (py_strip public_key) "https://disk.yandex.ru/" <;>
    simp [hsw]

/-- Witness for C8 (amended) at a non-Yandex URL. -/
theorem clean_public_key_amended_witness :
    clean_public_key "http://example.com/" = Except.error () ↔
      py_startswith (py_strip "http://example.com/") "https://disk.yandex.ru/"
        = false :=
  clean_public_key_amended "http://example.com/"

end YandexDisk
